import Mathlib

/-
Shallow embedding of the community-initiatives backend (models and route
handlers) and proofs about its behaviour.  Identifiers are modelled as
natural numbers, JS numbers as rationals, timestamps as naturals.
-/

namespace CC

abbrev UserId := Nat
abbrev ObjectId := Nat

/-! ## Feedback subdocument and the Initiative model (models/Initiative.js) -/

/-- An embedded feedback entry: user reference, rating (a JS number, 1..5)
and a comment, as in the feedback subdocument of initiativeSchema and
eventSchema. -/
structure Feedback where
  user : UserId
  rating : ℚ
  comment : String
deriving Repr, DecidableEq

/-- Sum of the ratings of a feedback list, as computed by the reduce call
in the pre-save hooks. -/
def ratingSum (fs : List Feedback) : ℚ :=
  (fs.map (fun f => f.rating)).sum

/-- The Initiative document, restricted to the fields the verified routes
touch: creator, members (plain ObjectId references per the schema), likes,
embedded feedback, the derived averageRating and totalRatings, and the
impact fields. -/
structure Initiative where
  creator : UserId
  members : List ObjectId
  likes : List UserId
  feedback : List Feedback
  averageRating : ℚ
  totalRatings : Nat
deriving Repr, DecidableEq

/-- The pre-save hook of initiativeSchema: when the feedback list is
non-empty, recompute averageRating as the mean of the ratings and
totalRatings as their count. -/
def Initiative.preSave (i : Initiative) : Initiative :=
  if 0 < i.feedback.length then
    { i with
      averageRating := ratingSum i.feedback / (i.feedback.length : ℚ),
      totalRatings := i.feedback.length }
  else i

/-- initiativeSchema.methods.addFeedback: drop any prior feedback by this
user, append the new entry, then save (which runs the pre-save hook). -/
def Initiative.addFeedback (i : Initiative) (userId : UserId) (rating : ℚ)
    (comment : String) : Initiative :=
  Initiative.preSave
    { i with
      feedback := (i.feedback.filter (fun f => f.user != userId))
        ++ [⟨userId, rating, comment⟩] }

/-! ## The Event model (models/Event.js) -/

/-- The Event document, restricted to the fields the verified routes touch.
Per eventSchema the capacity field defaults to 0 (meaning unlimited); there
is no maxAttendees path in the schema. -/
structure EventDoc where
  organizer : UserId
  attendees : List UserId
  likes : List UserId
  capacity : Nat
  feedback : List Feedback
  averageRating : ℚ
  totalRatings : Nat
  engagementRate : ℚ
deriving Repr, DecidableEq

/-- The pre-save hook of eventSchema: recompute averageRating and
totalRatings when feedback is non-empty, and engagementRate as
(likes / attendees) * 100 when attendees is non-empty. -/
def EventDoc.preSave (e : EventDoc) : EventDoc :=
  let e1 :=
    if 0 < e.feedback.length then
      { e with
        averageRating := ratingSum e.feedback / (e.feedback.length : ℚ),
        totalRatings := e.feedback.length }
    else e
  if 0 < e1.attendees.length then
    { e1 with
      engagementRate := ((e1.likes.length : ℚ) / (e1.attendees.length : ℚ)) * 100 }
  else e1

/-- eventSchema.methods.addFeedback: same shape as the Initiative method. -/
def EventDoc.addFeedback (e : EventDoc) (userId : UserId) (rating : ℚ)
    (comment : String) : EventDoc :=
  EventDoc.preSave
    { e with
      feedback := (e.feedback.filter (fun f => f.user != userId))
        ++ [⟨userId, rating, comment⟩] }

/-! ## The attend route (routes/events.js, POST /:id/attend) -/

/-- The attend handler reads event.maxAttendees, but eventSchema defines a
capacity path and no maxAttendees path; mongoose strict mode strips the
unknown field at construction, so on any document the property access
yields undefined, modelled as none. -/
def EventDoc.maxAttendees (_ : EventDoc) : Option Nat := none

/-- JS truthiness of the maxAttendees read: undefined and 0 are falsy. -/
def jsTruthyNat : Option Nat → Bool
  | none => false
  | some m => m != 0

inductive AttendResult where
  | notFound
  | alreadyAttending
  | eventFull
  | ok (e : EventDoc)
deriving Repr, DecidableEq

/-- POST /:id/attend: reject a duplicate attendee with 400; otherwise, if
event.maxAttendees is truthy and the attendee count has reached it, reject
with 400 Event is full; otherwise push the user and save. -/
def attendRoute (e : EventDoc) (uid : UserId) : AttendResult :=
  if uid ∈ e.attendees then .alreadyAttending
  else if jsTruthyNat e.maxAttendees
      ∧ (e.maxAttendees.getD 0) ≤ e.attendees.length then .eventFull
  else .ok (EventDoc.preSave { e with attendees := e.attendees ++ [uid] })

/-- DELETE /:id/attend: reject with 400 when not attending, otherwise
remove the user and save. -/
def unattendRoute (e : EventDoc) (uid : UserId) : AttendResult :=
  if uid ∈ e.attendees then
    .ok (EventDoc.preSave { e with attendees := e.attendees.filter (fun a => a != uid) })
  else .notFound

/-! ## The join route (routes/initiatives.js, POST /:id/join) -/

/-- The join handler evaluates member.user on each element of
initiative.members, but the schema declares members as a plain array of
ObjectId references, and an ObjectId value carries no user property: the
access yields undefined. -/
def objectIdUserProp (_ : ObjectId) : Option UserId := none

/-- Evaluation of the find callback over the members array: on the first
element, member.user is undefined, so member.user.toString() raises a
TypeError; an empty array returns no match. -/
def findMemberMatching (members : List ObjectId) (uid : UserId) :
    Except Unit (Option ObjectId) :=
  match members with
  | [] => .ok none
  | m :: rest =>
    match objectIdUserProp m with
    | none => .error ()
    | some u => if u = uid then .ok (some m) else findMemberMatching rest uid

/-- Mongoose cast of the pushed object literal with user and role fields
into the ObjectId-typed members array: the literal is not castable, so the
save raises a CastError. -/
def castMemberObject (_ : UserId) (_ : String) : Option ObjectId := none

inductive JoinResult where
  | notFound
  | alreadyMember
  | joined (i : Initiative)
  | serverError
deriving Repr, DecidableEq

/-- POST /:id/join: look for an existing member whose user field matches the
caller (this access raises inside the find callback and lands in the catch
handler as a 500), otherwise push a member object and save. -/
def joinRoute (i : Initiative) (uid : UserId) (role : String) : JoinResult :=
  match findMemberMatching i.members uid with
  | .error _ => .serverError
  | .ok (some _) => .alreadyMember
  | .ok none =>
    match castMemberObject uid role with
    | none => .serverError
    | some m => .joined { i with members := i.members ++ [m] }

/-! ## The notifications routes (routes/notifications.js) -/

/-- The Notification document, restricted to the fields the routes touch:
per notificationSchema the recipient reference is the owner field; the
schema declares no user path. -/
structure NotificationDoc where
  recipient : UserId
  sender : Option UserId
  isRead : Bool
deriving Repr, DecidableEq

/-- The routes read notification.user, a path the schema does not define:
the access yields undefined on every document. -/
def NotificationDoc.userProp (_ : NotificationDoc) : Option UserId := none

inductive NotifResult where
  | notFound
  | serverError
  | ok (n : NotificationDoc)
deriving Repr, DecidableEq

/-- GET /:id: 404 when absent; otherwise the ownership test evaluates
notification.user.toString(), which raises a TypeError (user is undefined)
and is caught as a 500; were a user value present, a mismatch would be a
404 and a match would return the notification. -/
def getNotificationRoute (found : Option NotificationDoc) (uid : UserId) :
    NotifResult :=
  match found with
  | none => .notFound
  | some n =>
    match n.userProp with
    | none => .serverError
    | some u => if u ≠ uid then .notFound else .ok n

/-- PUT /:id/read follows the same ownership test before setting isRead. -/
def markNotificationReadRoute (found : Option NotificationDoc) (uid : UserId) :
    NotifResult :=
  match found with
  | none => .notFound
  | some n =>
    match n.userProp with
    | none => .serverError
    | some u => if u ≠ uid then .notFound else .ok { n with isRead := true }

/-- DELETE /:id follows the same ownership test before removing. -/
def deleteNotificationRoute (found : Option NotificationDoc) (uid : UserId) :
    NotifResult :=
  match found with
  | none => .notFound
  | some n =>
    match n.userProp with
    | none => .serverError
    | some u => if u ≠ uid then .notFound else .ok n

/-! ## Auth middleware (middleware/auth.js) -/

/-- The user record the middleware resolves and attaches to the request. -/
structure AuthedUser where
  id : UserId
  role : String
deriving Repr, DecidableEq

/-- Outcome of jwt.verify on the presented token: it either throws (bad
signature or expired) or yields the decoded payload with its userId. -/
inductive TokenVerification where
  | invalid
  | valid (userId : UserId)
deriving Repr, DecidableEq

/-- Outcome of a middleware chain: a 401 response, a 403 response, or the
handler running with the resolved user attached. -/
inductive AuthOutcome where
  | unauthorized
  | forbidden
  | proceed (u : AuthedUser)
deriving Repr, DecidableEq

/-- The auth middleware: no token yields 401; a token that fails
verification yields 401 from the catch block; a decoded userId that
resolves to no user yields 401; otherwise the user is attached and the
next handler runs. -/
def authMw (token : Option TokenVerification)
    (findUser : UserId → Option AuthedUser) : AuthOutcome :=
  match token with
  | none => .unauthorized
  | some .invalid => .unauthorized
  | some (.valid uid) =>
    match findUser uid with
    | none => .unauthorized
    | some u => .proceed u

/-- adminAuth: run auth, and in its continuation reject with 403 unless the
resolved role is admin. -/
def adminAuthMw (token : Option TokenVerification)
    (findUser : UserId → Option AuthedUser) : AuthOutcome :=
  match authMw token findUser with
  | .proceed u => if u.role ≠ "admin" then .forbidden else .proceed u
  | r => r

/-- moderatorAuth: run auth, and in its continuation reject with 403 unless
the resolved role is admin or moderator. -/
def moderatorAuthMw (token : Option TokenVerification)
    (findUser : UserId → Option AuthedUser) : AuthOutcome :=
  match authMw token findUser with
  | .proceed u =>
    if u.role ≠ "admin" ∧ u.role ≠ "moderator" then .forbidden else .proceed u
  | r => r

/-! ## Update and delete routes for initiatives and events -/

/-- Result of a mutating route paired with the resulting stored document
(none when absent or deleted). -/
inductive EditResult (α : Type) where
  | notFound
  | notAuthorized
  | ok (a : α)
deriving Repr, DecidableEq

/-- PUT /:id on initiatives: 404 when absent; 401 when the caller is
neither the creator nor an admin, leaving the document untouched; otherwise
apply the update. -/
def updateInitiativeRoute (stored : Option Initiative) (callerId : UserId)
    (callerRole : String) (upd : Initiative → Initiative) :
    EditResult Initiative × Option Initiative :=
  match stored with
  | none => (.notFound, none)
  | some d =>
    if d.creator ≠ callerId ∧ callerRole ≠ "admin" then (.notAuthorized, some d)
    else (.ok (upd d), some (upd d))

/-- DELETE /:id on initiatives: same guard, then remove the document. -/
def deleteInitiativeRoute (stored : Option Initiative) (callerId : UserId)
    (callerRole : String) : EditResult Unit × Option Initiative :=
  match stored with
  | none => (.notFound, none)
  | some d =>
    if d.creator ≠ callerId ∧ callerRole ≠ "admin" then (.notAuthorized, some d)
    else (.ok (), none)

/-- PUT /:id on events: 404 when absent; 401 when the caller is neither the
organizer nor an admin, leaving the document untouched; otherwise apply the
update. -/
def updateEventRoute (stored : Option EventDoc) (callerId : UserId)
    (callerRole : String) (upd : EventDoc → EventDoc) :
    EditResult EventDoc × Option EventDoc :=
  match stored with
  | none => (.notFound, none)
  | some d =>
    if d.organizer ≠ callerId ∧ callerRole ≠ "admin" then (.notAuthorized, some d)
    else (.ok (upd d), some (upd d))

/-- DELETE /:id on events: same guard, then remove the document. -/
def deleteEventRoute (stored : Option EventDoc) (callerId : UserId)
    (callerRole : String) : EditResult Unit × Option EventDoc :=
  match stored with
  | none => (.notFound, none)
  | some d =>
    if d.organizer ≠ callerId ∧ callerRole ≠ "admin" then (.notAuthorized, some d)
    else (.ok (), none)

/-! ## Listing pagination (routes/initiatives.js GET /, routes/messages.js GET /) -/

/-- The page slice the listing queries produce: skip (page - 1) * limit
matching records, then take at most limit. -/
def paginate {α : Type} (records : List α) (page limit : Nat) : List α :=
  (records.drop ((page - 1) * limit)).take limit

/-- Math.ceil(total / limit) on naturals, as computed for totalPages. -/
def totalPagesOf (total limit : Nat) : Nat :=
  (total + limit - 1) / limit

/-- Shape of a paginated listing response. -/
structure ListResponse (α : Type) where
  items : List α
  totalPages : Nat
  currentPage : Nat
  total : Nat
deriving Repr, DecidableEq

/-- A listing endpoint over the already-filtered, already-sorted matching
records: return the requested page slice and echo totalPages, currentPage
and total. -/
def listRoute {α : Type} (matching : List α) (page limit : Nat) :
    ListResponse α :=
  { items := paginate matching page limit,
    totalPages := totalPagesOf matching.length limit,
    currentPage := page,
    total := matching.length }

/-! ## Messages (models/Message.js, routes/messages.js) -/

/-- The Message document, restricted to the fields the verified routes
touch: sender and recipient references, read state and its timestamp. -/
structure MessageDoc where
  sender : UserId
  recipient : UserId
  isRead : Bool
  readAt : Option Nat
deriving Repr, DecidableEq

inductive MsgRouteStatus where
  | notFound
  | accessDenied
  | ok
deriving Repr, DecidableEq

/-- GET /:id on messages: deny access unless the caller is the sender or
the recipient; as a side effect, when the caller is the recipient and the
message is unread, set isRead and stamp readAt with the current time. -/
def getMessageRoute (m : MessageDoc) (viewer : UserId) (now : Nat) :
    MsgRouteStatus × MessageDoc :=
  if viewer ≠ m.sender ∧ viewer ≠ m.recipient then (.accessDenied, m)
  else if viewer = m.recipient ∧ m.isRead = false then
    (.ok, { m with isRead := true, readAt := some now })
  else (.ok, m)

/-- PUT /:id/read: deny access unless the caller is the recipient;
otherwise unconditionally set isRead and stamp readAt with the current
time. -/
def markMessageReadRoute (m : MessageDoc) (caller : UserId) (now : Nat) :
    MsgRouteStatus × MessageDoc :=
  if m.recipient ≠ caller then (.accessDenied, m)
  else (.ok, { m with isRead := true, readAt := some now })

inductive SendResult where
  | validationError
  | recipientNotFound
  | cannotSendToSelf
  | created (m : MessageDoc)
deriving Repr, DecidableEq

/-- POST / on messages: after input validation, 404 when the recipient
resolves to no user, 400 when the recipient equals the authenticated
sender, and otherwise persist a new unread message. -/
def sendMessageRoute (users : List UserId) (senderId recipientId : UserId) :
    SendResult :=
  if recipientId ∉ users then .recipientNotFound
  else if recipientId = senderId then .cannotSendToSelf
  else .created { sender := senderId, recipient := recipientId,
                  isRead := false, readAt := none }

/-! ## Impact score (models/Initiative.js, calculateImpactScore) -/

/-- The impactMetrics subdocument. -/
structure ImpactMetrics where
  peopleReached : ℚ
  hoursVolunteered : ℚ
  fundsRaised : ℚ
  environmentalImpact : ℚ
  socialConnections : ℚ
deriving Repr, DecidableEq

/-- JS Math.round: round half toward positive infinity. -/
def jsRound (q : ℚ) : ℤ := ⌊q + 1 / 2⌋

/-- initiativeSchema.methods.calculateImpactScore: the rounded sum of five
capped component terms. -/
def calculateImpactScore (m : ImpactMetrics) : ℤ :=
  jsRound (min (m.peopleReached / 100) 25
    + min (m.hoursVolunteered / 100) 25
    + min (m.fundsRaised / 1000) 20
    + min m.environmentalImpact 15
    + min (m.socialConnections / 10) 15)

/-- A concrete user directory used to instantiate middleware theorems. -/
def sampleDirectory : UserId → Option AuthedUser :=
  fun i => if i = 1 then some ⟨1, "user"⟩ else none

end CC

namespace CC

/-! ## C1 theorems -/

/-- The event pre-save hook never changes the feedback list itself. -/
theorem EventDoc.preSave_feedback (e : EventDoc) :
    (EventDoc.preSave e).feedback = e.feedback := by
  simp only [EventDoc.preSave]
  split <;> split <;> rfl

/-- C1: after any feedback submission via addFeedback (which saves, running
the pre-save hook), averageRating is the arithmetic mean of the current
ratings and totalRatings is their count; a submission from a user who
already has an entry replaces it, so the feedback count (hence totalRatings,
which equalled the count after the previous save) does not increase.  Both
the Initiative and the Event variants are stated. -/
theorem addFeedback_average_and_replace (i : Initiative) (e : EventDoc)
    (uid : UserId) (r : ℚ) (c : String) :
    ((i.addFeedback uid r c).averageRating
        = ratingSum (i.addFeedback uid r c).feedback
          / ((i.addFeedback uid r c).feedback.length : ℚ)
      ∧ (i.addFeedback uid r c).totalRatings
          = (i.addFeedback uid r c).feedback.length
      ∧ ((∃ f ∈ i.feedback, f.user = uid) →
          (i.addFeedback uid r c).feedback.length ≤ i.feedback.length))
    ∧ ((e.addFeedback uid r c).averageRating
        = ratingSum (e.addFeedback uid r c).feedback
          / ((e.addFeedback uid r c).feedback.length : ℚ)
      ∧ (e.addFeedback uid r c).totalRatings
          = (e.addFeedback uid r c).feedback.length
      ∧ ((∃ f ∈ e.feedback, f.user = uid) →
          (e.addFeedback uid r c).feedback.length ≤ e.feedback.length)) := by
  constructor
  · refine ⟨?_, ?_, ?_⟩
    · simp [Initiative.addFeedback, Initiative.preSave]
    · simp [Initiative.addFeedback, Initiative.preSave]
    · intro hex
      simp only [Initiative.addFeedback, Initiative.preSave]
      obtain ⟨f, hf, hfu⟩ := hex
      have hlt : (i.feedback.filter (fun f => f.user != uid)).length
          < i.feedback.length := by
        apply List.length_filter_lt_length_iff_exists.mpr
        exact ⟨f, hf, by simp [hfu]⟩
      simp only [List.length_append, List.length_cons, List.length_nil]
      split <;> simp <;> omega
  · refine ⟨?_, ?_, ?_⟩
    · simp [EventDoc.addFeedback, EventDoc.preSave]
      split <;> simp
    · simp [EventDoc.addFeedback, EventDoc.preSave]
      split <;> simp
    · intro hex
      simp only [EventDoc.addFeedback, EventDoc.preSave_feedback]
      obtain ⟨f, hf, hfu⟩ := hex
      have hlt : (e.feedback.filter (fun f => f.user != uid)).length
          < e.feedback.length := by
        apply List.length_filter_lt_length_iff_exists.mpr
        exact ⟨f, hf, by simp [hfu]⟩
      simp only [List.length_append, List.length_cons, List.length_nil]
      omega

/-- Witness for C1 at a concrete initiative and event where user 4 already
has a feedback entry and submits again. -/
theorem addFeedback_average_and_replace_witness :
    ((⟨10, [10], [], [⟨4, 3, "ok"⟩], 3, 1⟩ : Initiative).addFeedback 4 5 "x").totalRatings
      = ((⟨10, [10], [], [⟨4, 3, "ok"⟩], 3, 1⟩ : Initiative).addFeedback 4 5 "x").feedback.length
    ∧ ((⟨10, [10], [], [⟨4, 3, "ok"⟩], 3, 1⟩ : Initiative).addFeedback 4 5 "x").feedback.length ≤ 1
    ∧ ((⟨1, [1], [], 0, [⟨4, 2, "m"⟩], 2, 1, 0⟩ : EventDoc).addFeedback 4 5 "x").feedback.length ≤ 1 := by
  have h := addFeedback_average_and_replace
    ⟨10, [10], [], [⟨4, 3, "ok"⟩], 3, 1⟩
    ⟨1, [1], [], 0, [⟨4, 2, "m"⟩], 2, 1, 0⟩ 4 5 "x"
  exact ⟨h.1.2.1,
    h.1.2.2 ⟨⟨4, 3, "ok"⟩, by simp, rfl⟩,
    h.2.2.2 ⟨⟨4, 2, "m"⟩, by simp, rfl⟩⟩

/-! ## C2: capacity enforcement in the attend route -/

/-- C2: the attend route never rejects for capacity.  On the concrete event
with capacity 1 that already holds one attendee, a second distinct user is
admitted (the guard reads event.maxAttendees, a path the schema does not
define, so it is undefined and falsy); in general no call ever returns the
Event-is-full rejection. -/
theorem attend_ignores_capacity :
    (attendRoute ⟨1, [1], [], 1, [], 0, 0, 0⟩ 2
      = .ok ⟨1, [1, 2], [], 1, [], 0, 0, 0⟩)
    ∧ (∀ (e : EventDoc) (uid : UserId), attendRoute e uid ≠ .eventFull) := by
  constructor
  · simp [attendRoute, EventDoc.maxAttendees, jsTruthyNat, EventDoc.preSave,
      EventDoc.mk.injEq]
  · intro e uid
    simp only [attendRoute, EventDoc.maxAttendees, jsTruthyNat]
    split
    · simp
    · split
      · simp_all
      · simp

/-- Witness for C2: a concrete attend call is not rejected as full. -/
theorem attend_ignores_capacity_witness :
    attendRoute ⟨1, [1], [], 1, [], 0, 0, 0⟩ 5 ≠ .eventFull :=
  attend_ignores_capacity.2 ⟨1, [1], [], 1, [], 0, 0, 0⟩ 5

/-! ## C3: the join route -/

/-- C3: joining always fails.  On the concrete initiative whose members
list holds its creator, a join by a distinct user yields a 500 server error
(the find callback dereferences member.user on a plain ObjectId, raising a
TypeError); in general no call ever returns a joined result. -/
theorem join_never_adds_member :
    (joinRoute ⟨10, [10], [], [], 0, 0⟩ 20 "member" = .serverError)
    ∧ (∀ (i : Initiative) (uid : UserId) (role : String) (j : Initiative),
        joinRoute i uid role ≠ .joined j) := by
  constructor
  · rfl
  · intro i uid role j
    cases hm : i.members with
    | nil => simp [joinRoute, findMemberMatching, castMemberObject, hm]
    | cons m rest => simp [joinRoute, findMemberMatching, objectIdUserProp, hm]

/-- Witness for C3: a concrete join call never yields a joined result. -/
theorem join_never_adds_member_witness :
    joinRoute ⟨10, [10], [], [], 0, 0⟩ 20 "member"
      ≠ .joined ⟨10, [10, 20], [], [], 0, 0⟩ :=
  join_never_adds_member.2 ⟨10, [10], [], [], 0, 0⟩ 20 "member"
    ⟨10, [10, 20], [], [], 0, 0⟩

/-! ## C4: recipient scoping of the notification routes -/

/-- C4: the get, mark-read and delete notification routes fail with a 500
server error even on a notification owned by the caller (the ownership test
dereferences notification.user, a path the schema does not define, so the
toString call raises); in general get-by-id never succeeds. -/
theorem notification_routes_fail_on_own_notification :
    (getNotificationRoute (some ⟨7, none, false⟩) 7 = .serverError)
    ∧ (markNotificationReadRoute (some ⟨7, none, false⟩) 7 = .serverError)
    ∧ (deleteNotificationRoute (some ⟨7, none, false⟩) 7 = .serverError)
    ∧ (∀ (n : NotificationDoc) (uid : UserId) (nr : NotificationDoc),
        getNotificationRoute (some n) uid ≠ .ok nr) := by
  refine ⟨rfl, rfl, rfl, ?_⟩
  intro n uid nr
  simp [getNotificationRoute, NotificationDoc.userProp]

/-- Witness for C4: a concrete own-notification lookup never succeeds. -/
theorem notification_routes_fail_witness :
    getNotificationRoute (some ⟨7, none, false⟩) 7 ≠ .ok ⟨7, none, false⟩ :=
  notification_routes_fail_on_own_notification.2.2.2 ⟨7, none, false⟩ 7
    ⟨7, none, false⟩

/-! ## C5: ownership guard on update and delete -/

/-- C5: an update or delete of an initiative or event by a caller who is
neither the creator/organizer nor an admin returns the 401 not-authorized
response and leaves the stored document exactly as it was. -/
theorem update_delete_require_owner_or_admin (dI : Initiative) (dE : EventDoc)
    (uid : UserId) (role : String) (updI : Initiative → Initiative)
    (updE : EventDoc → EventDoc)
    (hI : dI.creator ≠ uid) (hE : dE.organizer ≠ uid) (hr : role ≠ "admin") :
    updateInitiativeRoute (some dI) uid role updI = (.notAuthorized, some dI)
    ∧ deleteInitiativeRoute (some dI) uid role = (.notAuthorized, some dI)
    ∧ updateEventRoute (some dE) uid role updE = (.notAuthorized, some dE)
    ∧ deleteEventRoute (some dE) uid role = (.notAuthorized, some dE) := by
  refine ⟨?_, ?_, ?_, ?_⟩ <;>
    simp [updateInitiativeRoute, deleteInitiativeRoute, updateEventRoute,
      deleteEventRoute, hI, hE, hr]

/-- Witness for C5 at a concrete document, caller and role. -/
theorem update_delete_require_owner_or_admin_witness :
    updateInitiativeRoute (some ⟨10, [10], [], [], 0, 0⟩) 99 "user" id
      = (.notAuthorized, some ⟨10, [10], [], [], 0, 0⟩)
    ∧ deleteEventRoute (some ⟨1, [1], [], 0, [], 0, 0, 0⟩) 99 "user"
      = (.notAuthorized, some ⟨1, [1], [], 0, [], 0, 0, 0⟩) := by
  have h := update_delete_require_owner_or_admin ⟨10, [10], [], [], 0, 0⟩
    ⟨1, [1], [], 0, [], 0, 0, 0⟩ 99 "user" id id
    (by decide) (by decide) (by decide)
  exact ⟨h.1, h.2.2.2⟩

/-! ## C6: the middleware chain -/

/-- C6: a missing token, a token failing verification, or a decoded subject
resolving to no user yields the 401 response from the base middleware; once
the base check passes, the admin wrapper yields 403 exactly when the role is
not admin, and the moderator wrapper yields 403 exactly when the role is
neither admin nor moderator, the handler proceeding otherwise. -/
theorem auth_middleware_gates (f : UserId → Option AuthedUser)
    (uid : UserId) (u : AuthedUser) :
    authMw none f = .unauthorized
    ∧ authMw (some .invalid) f = .unauthorized
    ∧ (f uid = none → authMw (some (.valid uid)) f = .unauthorized)
    ∧ (f uid = some u →
        adminAuthMw (some (.valid uid)) f
          = if u.role ≠ "admin" then .forbidden else .proceed u)
    ∧ (f uid = some u →
        moderatorAuthMw (some (.valid uid)) f
          = if u.role ≠ "admin" ∧ u.role ≠ "moderator" then .forbidden
            else .proceed u) := by
  refine ⟨rfl, rfl, ?_, ?_, ?_⟩ <;> intro h <;>
    simp [authMw, adminAuthMw, moderatorAuthMw, h]

/-- Witness for C6 on a concrete directory holding one plain user. -/
theorem auth_middleware_gates_witness :
    authMw none sampleDirectory = .unauthorized
    ∧ authMw (some .invalid) sampleDirectory = .unauthorized
    ∧ authMw (some (.valid 2)) sampleDirectory = .unauthorized
    ∧ adminAuthMw (some (.valid 1)) sampleDirectory = .forbidden
    ∧ moderatorAuthMw (some (.valid 1)) sampleDirectory = .forbidden := by
  have h2 := auth_middleware_gates sampleDirectory 2 ⟨1, "user"⟩
  have h1 := auth_middleware_gates sampleDirectory 1 ⟨1, "user"⟩
  refine ⟨h1.1, h1.2.1, h2.2.2.1 rfl, ?_, ?_⟩
  · rw [h1.2.2.2.1 rfl]; decide
  · rw [h1.2.2.2.2 rfl]; decide

/-! ## C7: pagination -/

/-- C7: a listing response skips (page - 1) * limit records and returns at
most limit of them, in order; it echoes currentPage and total, and its
totalPages is the ceiling of total / limit (stated as the least number of
pages covering the total); concretely, limit 10 and page 2 over 25 records
return records 11 through 20 with totalPages 3. -/
theorem pagination_slices_and_pages (α : Type) (matching : List α)
    (page limit : Nat) (h : 0 < limit) :
    (listRoute matching page limit).items.length ≤ limit
    ∧ (∀ i, i < limit →
        (listRoute matching page limit).items[i]?
          = matching[(page - 1) * limit + i]?)
    ∧ (listRoute matching page limit).currentPage = page
    ∧ (listRoute matching page limit).total = matching.length
    ∧ matching.length ≤ limit * (listRoute matching page limit).totalPages
    ∧ (∀ k, matching.length ≤ limit * k →
        (listRoute matching page limit).totalPages ≤ k)
    ∧ listRoute (List.range' 1 25) 2 10
        = ⟨List.range' 11 10, 3, 2, 25⟩ := by
  refine ⟨?_, ?_, rfl, rfl, ?_, ?_, ?_⟩
  · simp only [listRoute, paginate, List.length_take]
    omega
  · intro i hi
    simp [listRoute, paginate, List.getElem?_take, List.getElem?_drop, hi]
  · have hle : totalPagesOf matching.length limit ≤ totalPagesOf matching.length limit :=
      le_refl _
    rw [totalPagesOf, Nat.div_le_iff_le_mul_add_pred h] at hle
    simp only [listRoute, totalPagesOf]
    omega
  · intro k hk
    simp only [listRoute, totalPagesOf]
    rw [Nat.div_le_iff_le_mul_add_pred h]
    omega
  · decide

/-- Witness for C7 at a concrete record list, page and limit. -/
theorem pagination_slices_and_pages_witness :
    0 < 10
    ∧ (listRoute (List.range' 1 25) 2 10).items[0]? = (List.range' 1 25)[10]?
    ∧ (listRoute (List.range' 1 25) 2 10).totalPages ≤ 3 := by
  have h := pagination_slices_and_pages Nat (List.range' 1 25) 2 10 (by decide)
  exact ⟨by decide, by simpa using h.2.1 0 (by decide),
    h.2.2.2.2.2.1 3 (by decide)⟩

/-! ## C8: marking a message read -/

/-- C8 counterexample: the explicit mark-read route on a message that is
already read (readAt stamped 5) at a later time 6 changes readAt, so the
operation as claimed does not leave isRead and readAt unchanged. -/
theorem markRead_changes_readAt_counterexample :
    (⟨1, 2, true, some 5⟩ : MessageDoc).isRead = true
    ∧ (markMessageReadRoute ⟨1, 2, true, some 5⟩ 2 6).2.readAt
        ≠ (⟨1, 2, true, some 5⟩ : MessageDoc).readAt := by
  decide

/-- C8 amended: the get-by-id side-effect marking is idempotent — it marks
only when the viewer is the recipient and the message is unread, and leaves
an already-read message entirely unchanged — while the explicit mark-read
route always sets isRead and overwrites readAt with the time of the call,
so on an already-read message isRead is unchanged but readAt is updated. -/
theorem message_read_marking_amended (m : MessageDoc) (viewer now : UserId) :
    (m.isRead = true → (getMessageRoute m viewer now).2 = m)
    ∧ (viewer ≠ m.recipient → (getMessageRoute m viewer now).2 = m)
    ∧ (markMessageReadRoute m m.recipient now).2.isRead = true
    ∧ (markMessageReadRoute m m.recipient now).2.readAt = some now
    ∧ (m.isRead = true →
        (markMessageReadRoute m m.recipient now).2.isRead = m.isRead) := by
  refine ⟨?_, ?_, ?_, ?_, ?_⟩
  · intro h
    simp only [getMessageRoute, h]
    split
    · rfl
    · split
      · simp_all
      · rfl
  · intro h
    simp only [getMessageRoute]
    split
    · rfl
    · split
      · simp_all
      · rfl
  · simp [markMessageReadRoute]
  · simp [markMessageReadRoute]
  · intro h
    simp [markMessageReadRoute, h]

/-- Witness for C8 amended at a concrete read message and times. -/
theorem message_read_marking_amended_witness :
    (getMessageRoute ⟨1, 2, true, some 5⟩ 2 6).2 = ⟨1, 2, true, some 5⟩
    ∧ (markMessageReadRoute ⟨1, 2, true, some 5⟩ 2 6).2.isRead
        = (⟨1, 2, true, some 5⟩ : MessageDoc).isRead := by
  have h := message_read_marking_amended ⟨1, 2, true, some 5⟩ 2 6
  exact ⟨h.1 rfl, h.2.2.2.2 rfl⟩

/-! ## C9: the impact score -/

/-- C9: the impact score is the rounded sum of five capped terms whose
ceilings 25, 25, 20, 15 and 15 sum to 100, and on non-negative metrics the
result lies between 0 and 100. -/
theorem impactScore_bounded (m : ImpactMetrics)
    (h1 : 0 ≤ m.peopleReached) (h2 : 0 ≤ m.hoursVolunteered)
    (h3 : 0 ≤ m.fundsRaised) (h4 : 0 ≤ m.environmentalImpact)
    (h5 : 0 ≤ m.socialConnections) :
    calculateImpactScore m
      = jsRound (min (m.peopleReached / 100) 25
          + min (m.hoursVolunteered / 100) 25
          + min (m.fundsRaised / 1000) 20
          + min m.environmentalImpact 15
          + min (m.socialConnections / 10) 15)
    ∧ (25 : ℚ) + 25 + 20 + 15 + 15 = 100
    ∧ 0 ≤ calculateImpactScore m
    ∧ calculateImpactScore m ≤ 100 := by
  have hs0 : (0 : ℚ) ≤ min (m.peopleReached / 100) 25
      + min (m.hoursVolunteered / 100) 25
      + min (m.fundsRaised / 1000) 20
      + min m.environmentalImpact 15
      + min (m.socialConnections / 10) 15 := by
    have t1 : (0 : ℚ) ≤ min (m.peopleReached / 100) 25 :=
      le_min (by positivity) (by norm_num)
    have t2 : (0 : ℚ) ≤ min (m.hoursVolunteered / 100) 25 :=
      le_min (by positivity) (by norm_num)
    have t3 : (0 : ℚ) ≤ min (m.fundsRaised / 1000) 20 :=
      le_min (by positivity) (by norm_num)
    have t4 : (0 : ℚ) ≤ min m.environmentalImpact 15 :=
      le_min h4 (by norm_num)
    have t5 : (0 : ℚ) ≤ min (m.socialConnections / 10) 15 :=
      le_min (by positivity) (by norm_num)
    linarith
  have hs100 : min (m.peopleReached / 100) 25
      + min (m.hoursVolunteered / 100) 25
      + min (m.fundsRaised / 1000) 20
      + min m.environmentalImpact 15
      + min (m.socialConnections / 10) 15 ≤ (100 : ℚ) := by
    have t1 := min_le_right (m.peopleReached / 100) (25 : ℚ)
    have t2 := min_le_right (m.hoursVolunteered / 100) (25 : ℚ)
    have t3 := min_le_right (m.fundsRaised / 1000) (20 : ℚ)
    have t4 := min_le_right m.environmentalImpact (15 : ℚ)
    have t5 := min_le_right (m.socialConnections / 10) (15 : ℚ)
    linarith
  refine ⟨rfl, by norm_num, ?_, ?_⟩
  · show (0 : ℤ) ≤ jsRound _
    rw [jsRound]
    have : (0 : ℤ) = ⌊(1 : ℚ) / 2⌋ := by norm_num
    rw [this]
    apply Int.floor_le_floor
    linarith
  · show jsRound _ ≤ (100 : ℤ)
    rw [jsRound]
    have h201 : ⌊(201 : ℚ) / 2⌋ = (100 : ℤ) := by norm_num [Int.floor_eq_iff]
    calc ⌊_ + (1 : ℚ) / 2⌋ ≤ ⌊(201 : ℚ) / 2⌋ := by
          apply Int.floor_le_floor
          linarith
      _ = 100 := h201

/-- Witness for C9 at concrete non-negative metrics. -/
theorem impactScore_bounded_witness :
    0 ≤ calculateImpactScore ⟨1000, 50, 500, 7, 30⟩
    ∧ calculateImpactScore ⟨1000, 50, 500, 7, 30⟩ ≤ 100 := by
  have h := impactScore_bounded ⟨1000, 50, 500, 7, 30⟩
    (by norm_num) (by norm_num) (by norm_num) (by norm_num) (by norm_num)
  exact ⟨h.2.2.1, h.2.2.2⟩

/-! ## C10: sending a message to oneself -/

/-- C10: a send whose recipient is the authenticated sender (who, being
authenticated, resolves to an existing user) fails with the 400
cannot-send-to-yourself response and creates no message; and any send that
does create a message has an existing recipient distinct from the sender. -/
theorem send_to_self_rejected (users : List UserId) (senderId : UserId)
    (hs : senderId ∈ users) :
    (sendMessageRoute users senderId senderId = .cannotSendToSelf
      ∧ ∀ m, sendMessageRoute users senderId senderId ≠ .created m)
    ∧ ∀ recipientId m,
        sendMessageRoute users senderId recipientId = .created m →
          recipientId ∈ users ∧ recipientId ≠ senderId := by
  constructor
  · constructor
    · simp [sendMessageRoute, hs]
    · intro m
      simp [sendMessageRoute, hs]
  · intro recipientId m hm
    by_cases hmem : recipientId ∈ users
    · refine ⟨hmem, ?_⟩
      intro heq
      rw [sendMessageRoute] at hm
      simp [hmem, heq, hs] at hm
    · rw [sendMessageRoute] at hm
      simp [hmem] at hm

/-- Witness for C10 at a concrete directory and sender. -/
theorem send_to_self_rejected_witness :
    sendMessageRoute [1, 2] 1 1 = .cannotSendToSelf := by
  exact (send_to_self_rejected [1, 2] 1 (by decide)).1.1

end CC
